import Mathlib

/-!
Shallow embedding of the embedding-based retrieval core of the
vector-embeddings-qa repository (src/main.py and src/9_agno_qa.py).

Numeric model: Python/numpy double-precision floats are idealised as real
numbers.  The one float behaviour that matters to the spec — division by a
zero norm producing a non-finite value (numpy emits `0.0/0.0 = nan` with a
RuntimeWarning) — is modelled explicitly: a similarity is an `Option ℝ`,
where `none` stands for NaN.  `np.argsort` places NaN entries last, which the
order `nanLe` reproduces.
-/

namespace VectorQA

/-- Inner product of two equal-length real vectors, as `np.dot` computes it
row-by-row (`np.dot(embeddings_array, query_array)` in `find_most_similar`).
On ragged input the callers below never reach this function. -/
def dotProduct : List ℝ → List ℝ → ℝ
  | x :: xs, y :: ys => x * y + dotProduct xs ys
  | _, _ => 0

/-- Euclidean norm, as `np.linalg.norm` computes it: the square root of the sum of squares. -/
noncomputable def npNorm (v : List ℝ) : ℝ :=
  Real.sqrt (dotProduct v v)

/-- numpy float division.  A zero divisor yields a non-finite float
(`nan` here: the only zero divisors in `find_most_similar` are zero norms,
whose dot products are also zero, so the result is `0.0/0.0`); this is
modelled as `none`. -/
noncomputable def npDivide (a b : ℝ) : Option ℝ :=
  if b = 0 then none else some (a / b)

/-- The `similarities` array of `find_most_similar` (src/main.py:63-65):
`np.dot(embeddings_array, query_array) / (np.linalg.norm(embeddings_array, axis=1) * np.linalg.norm(query_array))`. -/
noncomputable def similarities (query : List ℝ) (embeddings : List (List ℝ)) :
    List (Option ℝ) :=
  embeddings.map (fun v => npDivide (dotProduct v query) (npNorm v * npNorm query))

/-- Comparison used by the model of `np.argsort`: ordinary `≤` on finite
values, with NaN (`none`) sorted after every finite value, as the numpy sort
documents. -/
def nanLe : Option ℝ → Option ℝ → Prop
  | _, none => True
  | none, some _ => False
  | some x, some y => x ≤ y

noncomputable instance nanLeDec : DecidableRel nanLe := fun a b =>
  match a, b with
  | none, none => isTrue trivial
  | some _, none => isTrue trivial
  | none, some _ => isFalse id
  | some x, some y => inferInstanceAs (Decidable (x ≤ y))

/-- Model of `np.argsort(similarities)`: the indices `0..N-1` reordered so that the
similarity values are ascending (stable: ties keep ascending index order,
as the numpy sort does on these small arrays). -/
noncomputable def argsort (sims : List (Option ℝ)) : List ℕ :=
  @List.insertionSort ℕ (fun i j => nanLe (sims.getD i none) (sims.getD j none))
    (fun i j => nanLeDec (sims.getD i none) (sims.getD j none))
    (List.range sims.length)

/-- Python slice `l[-k:]` for a nonnegative `k`: the last `k` elements
(`k = 0` gives `l[0:]`, the whole list, because `-0 = 0`). -/
def pyLastSlice {α : Type} (k : ℕ) (l : List α) : List α :=
  if k = 0 then l else l.drop (l.length - k)

/-- The error numpy raises in `find_most_similar` when the store is empty:
`np.array([])` is one-dimensional, so with a nonempty query `np.dot`
rejects the shapes, and with an empty query `np.linalg.norm(..., axis=1)`
rejects the axis. -/
def emptyDotError (query : List ℝ) : String :=
  match query with
  | [] => "numpy.AxisError: axis 1 is out of bounds for array of dimension 1"
  | _ :: _ => "ValueError: shapes not aligned"

/-- Model of `top_indices = np.argsort(similarities)[-top_k:]` (src/main.py:68),
together with the implicit numpy shape errors that precede it:
`np.array(embeddings)` rejects ragged rows, and `np.dot` requires the query
length to match the row length. -/
noncomputable def topKIndices (query : List ℝ) (embeddings : List (List ℝ))
    (k : ℕ) : Except String (List ℕ) :=
  match embeddings with
  | [] => .error (emptyDotError query)
  | v₀ :: _ =>
    if ∀ v ∈ embeddings, v.length = v₀.length then
      if query.length = v₀.length then
        .ok (pyLastSlice k (argsort (similarities query embeddings)))
      else .error "ValueError: shapes not aligned"
    else .error "ValueError: inhomogeneous array"

/-- Model of `find_most_similar(query_embedding, embeddings, texts, top_k=3)`
(src/main.py:56-70): compute cosine similarities, take the last argsort
`top_k` indices, and return `[texts[i] for i in top_indices]`.  Python list
indexing out of range raises, modelled as the `IndexError` branch. -/
noncomputable def find_most_similar (query_embedding : List ℝ)
    (embeddings : List (List ℝ)) (texts : List String) (top_k : ℕ := 3) :
    Except String (List String) :=
  match topKIndices query_embedding embeddings top_k with
  | .error e => .error e
  | .ok idxs =>
    if ∀ i ∈ idxs, i < texts.length then
      .ok (idxs.map (fun i => texts.getD i ""))
    else
      .error "IndexError: list index out of range"

/-- A JSON value, the content of `embedding_data/embedding.json`.  `json.dump`
followed by `json.load` reproduces such a value exactly (numbers up to
floating-point representation, here idealised as `ℝ`). -/
inductive JValue where
  | jnull : JValue
  | jbool : Bool → JValue
  | jnum : ℝ → JValue
  | jstr : String → JValue
  | jarr : List JValue → JValue
  | jobj : List (String × JValue) → JValue

/-- Model of `save_embeddings(texts, embeddings)` (src/main.py:43-47): the JSON
object with the texts and embeddings fields, written to the store file. -/
def save_embeddings (texts : List String) (embeddings : List (List ℝ)) : JValue :=
  .jobj [("texts", .jarr (texts.map .jstr)),
         ("embeddings", .jarr (embeddings.map (fun e => .jarr (e.map .jnum))))]

/-- Model of `load_embeddings()` (src/main.py:50-53): `json.load` parses the file back
into the value that was serialised, with no validation of any kind — the
parsed object is returned as-is. -/
def load_embeddings (file : JValue) : JValue := file

/-- Read a JSON array of strings back as a Python list of strings. -/
def decodeStrings : List JValue → Option (List String)
  | [] => some []
  | .jstr s :: rest => (decodeStrings rest).map (fun l => s :: l)
  | _ => none

/-- Read a JSON array of numbers back as a Python list of floats. -/
def decodeNums : List JValue → Option (List ℝ)
  | [] => some []
  | .jnum x :: rest => (decodeNums rest).map (fun l => x :: l)
  | _ => none

/-- Read a JSON array of number arrays back as a Python list of vectors. -/
def decodeRows : List JValue → Option (List (List ℝ))
  | [] => some []
  | .jarr row :: rest =>
    match decodeNums row with
    | some r => (decodeRows rest).map (fun l => r :: l)
    | none => none
  | _ => none

/-- Model of `stored_data["texts"]`: the texts field of the loaded artifact, when the
artifact is an object with such a field holding a list of strings. -/
def jTexts (j : JValue) : Option (List String) :=
  match j with
  | .jobj fields =>
    match fields.lookup "texts" with
    | some (.jarr items) => decodeStrings items
    | _ => none
  | _ => none

/-- Model of `stored_data["embeddings"]`: the embeddings field of the loaded artifact,
when it is a list of lists of numbers. -/
def jEmbeddings (j : JValue) : Option (List (List ℝ)) :=
  match j with
  | .jobj fields =>
    match fields.lookup "embeddings" with
    | some (.jarr items) => decodeRows items
    | _ => none
  | _ => none

/-- The whitespace characters Python `str.strip()` removes (ASCII core). -/
def pyIsSpace (c : Char) : Bool :=
  c = ' ' || c = '\t' || c = '\n' || c = '\r' || c = '\x0b' || c = '\x0c'

/-- Python `line.strip()`: drop leading and trailing whitespace. -/
def pyStrip (s : String) : String :=
  String.mk (((s.data.dropWhile pyIsSpace).reverse.dropWhile pyIsSpace).reverse)

/-- Model of `load_content()` (src/main.py:27-30): the comprehension
`[line.strip() for line in f if line.strip()]` over the lines of the source
(a Python line is truthy exactly when nonempty). -/
def load_content (lines : List String) : List String :=
  lines.filterMap (fun line => if pyStrip line = "" then none else some (pyStrip line))

/-- A line consisting only of whitespace (what the spec calls a blank line). -/
def isBlankLine (line : String) : Bool :=
  line.data.all pyIsSpace

/-- Spec-worded content loading, for comparison with `load_content`: the
whitespace-trimmed versions of the non-blank source lines, in source
order. -/
def loadContentSpec (lines : List String) : List String :=
  (lines.filter (fun l => !(isBlankLine l))).map pyStrip

/-- Python `sep.join(l)`: the elements of `l` concatenated with `sep` between
consecutive elements and nothing else. -/
def pyJoin (sep : String) : List String → String
  | [] => ""
  | [s] => s
  | s :: rest => s ++ sep ++ pyJoin sep rest

/-- Spec-worded context assembly, for comparison with `pyJoin`: the text
bodies concatenated in order, a blank line (two newlines) between
consecutive bodies, nothing else added. -/
def contextSpec (texts : List String) : String :=
  match texts with
  | [] => ""
  | t :: rest => rest.foldl (fun acc s => acc ++ "\n\n" ++ s) t

/-- Model of `get_relevant_context` of src/9_agno_qa.py:87-101 (identically the
context-assembly steps of `answer_question`, src/main.py:75-91): embed the
query, call `find_most_similar` with the default `top_k = 3`, and join the
relevant texts with `"\n\n"`. -/
noncomputable def get_relevant_context (embed : String → List ℝ)
    (storedEmbeddings : List (List ℝ)) (storedTexts : List String)
    (query : String) : Except String String :=
  (find_most_similar (embed query) storedEmbeddings storedTexts 3).map
    (fun relevant_texts => pyJoin "\n\n" relevant_texts)

/-- Model of `answer_question(question)` (src/main.py:73-105), over an explicit state:
the persisted artifact (`none` when `embedding_data/embedding.json` does not
exist).  `embed` and `complete` model the external embedding and completion
providers.  The function embeds the question, loads the stored data, finds
the most similar texts, builds the prompt, and returns the completion along
with the resulting file state — it performs no write, so the state is
returned unchanged on every path. -/
noncomputable def answer_question (embed : String → List ℝ)
    (complete : String → String) (file : Option JValue) (question : String) :
    Except String String × Option JValue :=
  match file with
  | none => (.error "FileNotFoundError: embedding_data/embedding.json", none)
  | some stored_file =>
    let stored_data := load_embeddings stored_file
    match jEmbeddings stored_data, jTexts stored_data with
    | some embs, some texts =>
      match find_most_similar (embed question) embs texts 3 with
      | .ok relevant_texts =>
        let context := pyJoin "\n\n" relevant_texts
        (.ok (complete ("Context:\n" ++ context ++ "\n\nQuestion: " ++ question)),
          some stored_file)
      | .error e => (.error e, some stored_file)
    | _, _ => (.error "KeyError", some stored_file)


/-- A persisted artifact whose texts and embeddings have different lengths
(two texts, one vector), used to exercise `load_embeddings` below. -/
def malStore : JValue :=
  .jobj [("texts", .jarr [.jstr "a", .jstr "b"]),
         ("embeddings", .jarr [.jarr [.jnum 1]])]

/-! ## Helper lemmas -/

lemma dropWhile_all {p : Char → Bool} (d : List Char) :
    (∀ c ∈ d.dropWhile p, p c) ↔ (∀ c ∈ d, p c) := by
  constructor
  · intro h c hc
    rcases (List.mem_append.mp
        ((List.takeWhile_append_dropWhile (p := p) (l := d)) ▸ hc)) with h1 | h2
    · exact List.mem_takeWhile_imp h1
    · exact h c h2
  · intro h c hc
    exact h c ((List.dropWhile_sublist (p := p) (l := d)).mem hc)

lemma pyStrip_eq_empty_iff (s : String) :
    pyStrip s = "" ↔ isBlankLine s = true := by
  simp only [pyStrip, isBlankLine, String.ext_iff]
  simp [List.dropWhile_eq_nil_iff, dropWhile_all, List.all_eq_true]

lemma foldl_sep (sep t r : String) (rest : List String) :
    t ++ sep ++ rest.foldl (fun acc s => acc ++ sep ++ s) r
      = rest.foldl (fun acc s => acc ++ sep ++ s) (t ++ sep ++ r) := by
  induction rest generalizing r with
  | nil => rfl
  | cons x xs ih =>
    simp only [List.foldl_cons]
    rw [ih]
    congr 1
    simp [String.append_assoc]

lemma pyJoin_eq_contextSpec (ts : List String) :
    pyJoin "\n\n" ts = contextSpec ts := by
  match ts with
  | [] => rfl
  | [t] => rfl
  | t :: r :: rest =>
    show t ++ "\n\n" ++ pyJoin "\n\n" (r :: rest) = _
    rw [pyJoin_eq_contextSpec (r :: rest)]
    show t ++ "\n\n" ++ (rest.foldl (fun acc s => acc ++ "\n\n" ++ s) r) = _
    rw [foldl_sep]
    rfl

lemma decodeStrings_roundtrip (t : List String) :
    decodeStrings (t.map JValue.jstr) = some t := by
  induction t with
  | nil => rfl
  | cons s rest ih => simp [decodeStrings, ih]

lemma decodeNums_roundtrip (v : List ℝ) :
    decodeNums (v.map JValue.jnum) = some v := by
  induction v with
  | nil => rfl
  | cons x rest ih => simp [decodeNums, ih]

lemma decodeRows_roundtrip (vs : List (List ℝ)) :
    decodeRows (vs.map (fun e => JValue.jarr (e.map JValue.jnum))) = some vs := by
  induction vs with
  | nil => rfl
  | cons v rest ih => simp [decodeRows, decodeNums_roundtrip, ih]

lemma sims_ex :
    similarities [(1 : ℝ), 0] [[1, 0], [0, 1]] = [some 1, some 0] := by
  norm_num [similarities, npDivide, npNorm, dotProduct, Real.sqrt_one]

lemma argsort_ex : argsort [some (1 : ℝ), some 0] = [1, 0] := by
  norm_num [argsort, List.insertionSort, List.orderedInsert, nanLe,
    List.range_succ, List.getD_cons_zero, List.getD_cons_succ]

lemma fms_ex :
    find_most_similar [(1 : ℝ), 0] [[1, 0], [0, 1]] ["a", "b"] 3 =
      .ok ["b", "a"] := by
  simp [find_most_similar, topKIndices, sims_ex, argsort_ex, pyLastSlice]

lemma sims_single : similarities [(1 : ℝ)] [[1]] = [some 1] := by
  norm_num [similarities, npDivide, npNorm, dotProduct, Real.sqrt_one]

lemma argsort_single : argsort [some (1 : ℝ)] = [0] := by
  norm_num [argsort, List.insertionSort, List.orderedInsert, nanLe,
    List.range_succ, List.getD_cons_zero]

lemma fms_single :
    find_most_similar [(1 : ℝ)] [[1]] ["a", "b"] 3 = .ok ["a"] := by
  simp [find_most_similar, topKIndices, sims_single, argsort_single, pyLastSlice]

/-! ## Claims -/

/-- Claim C1: the spec fixes the canonical `topK` order as descending by
score, highest first (ties by ascending index).  The code instead returns the
top-k in ascending similarity order — `np.argsort` sorts ascending and the
`[-top_k:]` slice is never reversed.  Evaluated at the failing input: with
query `[1, 0]` and stored vectors `[[1, 0], [0, 1]]` the similarities are
`[1, 0]`, yet the text with score `0` is returned before the text with
score `1`. -/
theorem topk_output_is_ascending :
    find_most_similar [(1 : ℝ), 0] [[1, 0], [0, 1]] ["a", "b"] 3 =
      .ok ["b", "a"] ∧
    similarities [(1 : ℝ), 0] [[1, 0], [0, 1]] = [some 1, some 0] :=
  ⟨fms_ex, sims_ex⟩

/-- Claim C2: the spec defines the similarity against a zero-norm vector as
`0.0`, never NaN.  The code has no such fallback: with query `[0]` and stored
vector `[1]` it computes `0.0 / 0.0`, which numpy evaluates to NaN
(modelled as `none`), not to `0.0`. -/
theorem zero_norm_similarity_is_nan :
    similarities [(0 : ℝ)] [[1]] = [none] ∧ (none : Option ℝ) ≠ some 0 := by
  constructor
  · norm_num [similarities, npDivide, npNorm, dotProduct, Real.sqrt_one,
      Real.sqrt_zero]
  · simp

/-- Claim C3: the claim says `find_most_similar` on an empty store returns an
empty sequence without error; the code instead hits a numpy shape error,
because `np.array([])` is a one-dimensional empty array that `np.dot` cannot
multiply with a length-1 query.  This theorem evaluates the model at that
failing input. -/
theorem find_most_similar_empty_store_raises :
    find_most_similar [(1 : ℝ)] [] [] 3 =
      .error "ValueError: shapes not aligned" := rfl

/-- Claim C4: the claim says loading an artifact whose texts and embeddings
lengths differ fails with MalformedStore at load time.  The code performs no
validation whatsoever: `load_embeddings` is a bare `json.load`, the malformed
artifact (two texts, one vector) is returned as-is, and `answer_question`
hands it onward to search, which silently succeeds. -/
theorem load_embeddings_accepts_malformed :
    load_embeddings malStore = malStore ∧
    jTexts (load_embeddings malStore) = some ["a", "b"] ∧
    jEmbeddings (load_embeddings malStore) = some [[1]] ∧
    (answer_question (fun _ => [1]) (fun p => p) (some malStore) "q").1 =
      .ok ("Context:\n" ++ "a" ++ "\n\nQuestion: " ++ "q") := by
  refine ⟨rfl, rfl, rfl, ?_⟩
  simp only [answer_question]
  rw [show jEmbeddings (load_embeddings malStore) = some [[1]] from rfl,
    show jTexts (load_embeddings malStore) = some ["a", "b"] from rfl]
  simp [fms_single, pyJoin]

/-- Claim C5: for aligned sequences with consistent dimensionality, loading
after saving returns the original pair — `json.dump` followed by `json.load`
reproduces the texts exactly and the vectors up to floating-point
representation (exact in this real-number model). -/
theorem save_load_roundtrip (texts : List String) (vectors : List (List ℝ))
    (hlen : texts.length = vectors.length)
    (hdim : ∀ v₁ ∈ vectors, ∀ v₂ ∈ vectors, v₁.length = v₂.length) :
    jTexts (load_embeddings (save_embeddings texts vectors)) = some texts ∧
    jEmbeddings (load_embeddings (save_embeddings texts vectors)) = some vectors := by
  constructor
  · simp [jTexts, load_embeddings, save_embeddings, List.lookup,
      decodeStrings_roundtrip]
  · simp [jEmbeddings, load_embeddings, save_embeddings, List.lookup,
      decodeRows_roundtrip]

/-- Witness for C5 at the store `(["a"], [[1.0]])`. -/
theorem save_load_roundtrip_witness :
    (["a"] : List String).length = ([[(1 : ℝ)]] : List (List ℝ)).length ∧
    (jTexts (load_embeddings (save_embeddings ["a"] [[1]])) = some ["a"] ∧
     jEmbeddings (load_embeddings (save_embeddings ["a"] [[1]])) = some [[1]]) :=
  ⟨rfl, save_load_roundtrip ["a"] [[1]] rfl (by simp)⟩

/-- Claim C6 counterexample: as stated the claim also covers `N = 0` stored
records, where the result should have `min(k, 0) = 0` entries; the code
instead raises a numpy shape error and produces no result at all. -/
theorem topk_cardinality_fails_on_empty :
    find_most_similar [(1 : ℝ)] [] [] 1 =
      .error "ValueError: shapes not aligned" ∧
    ∀ res : List String, find_most_similar [(1 : ℝ)] [] [] 1 ≠ .ok res := by
  refine ⟨rfl, fun res h => ?_⟩
  rw [show find_most_similar [(1 : ℝ)] [] [] 1 =
      .error "ValueError: shapes not aligned" from rfl] at h
  exact Except.noConfusion h

/-- Claim C6 (amended to a nonempty store): for `N ≥ 1` stored records of one
dimensionality, a query of that dimensionality, aligned texts and `k ≥ 1`,
`find_most_similar` returns exactly `min(k, N)` entries, drawn at distinct
stored indices; in particular `k ≥ N` returns all `N` records. -/
theorem topk_cardinality (query : List ℝ) (embeddings : List (List ℝ))
    (texts : List String) (k d : ℕ)
    (hne : embeddings ≠ [])
    (hdim : ∀ v ∈ embeddings, v.length = d)
    (hq : query.length = d)
    (hlen : texts.length = embeddings.length)
    (hk : 1 ≤ k) :
    ∃ idxs : List ℕ,
      topKIndices query embeddings k = .ok idxs ∧
      idxs.Nodup ∧
      idxs.length = min k embeddings.length ∧
      (∀ i ∈ idxs, i < embeddings.length) ∧
      find_most_similar query embeddings texts k =
        .ok (idxs.map (fun i => texts.getD i "")) := by
  cases embeddings with
  | nil => exact absurd rfl hne
  | cons v₀ rest =>
    have hc1 : ∀ v ∈ v₀ :: rest, v.length = v₀.length := by
      intro v hv
      rw [hdim v hv, hdim v₀ (List.mem_cons_self v₀ rest)]
    have hc2 : query.length = v₀.length := by
      rw [hq, hdim v₀ (List.mem_cons_self v₀ rest)]
    have hslen : (similarities query (v₀ :: rest)).length = (v₀ :: rest).length :=
      List.length_map _ _
    have hperm : List.Perm (argsort (similarities query (v₀ :: rest)))
        (List.range (similarities query (v₀ :: rest)).length) := by
      unfold argsort
      exact List.perm_insertionSort _ _
    have hlen_as : (argsort (similarities query (v₀ :: rest))).length =
        (v₀ :: rest).length := by
      rw [hperm.length_eq, List.length_range, hslen]
    have hnodup : (argsort (similarities query (v₀ :: rest))).Nodup :=
      hperm.nodup_iff.mpr (List.nodup_range _)
    have hmem : ∀ i ∈ argsort (similarities query (v₀ :: rest)),
        i < (v₀ :: rest).length := by
      intro i hi
      have h1 := hperm.mem_iff.mp hi
      rw [List.mem_range, hslen] at h1
      exact h1
    have hok : topKIndices query (v₀ :: rest) k =
        .ok (pyLastSlice k (argsort (similarities query (v₀ :: rest)))) := by
      simp only [topKIndices]
      rw [if_pos hc1, if_pos hc2]
    have hkz : ¬ k = 0 := by omega
    have hslice : pyLastSlice k (argsort (similarities query (v₀ :: rest))) =
        (argsort (similarities query (v₀ :: rest))).drop
          ((argsort (similarities query (v₀ :: rest))).length - k) := by
      unfold pyLastSlice
      rw [if_neg hkz]
    refine ⟨pyLastSlice k (argsort (similarities query (v₀ :: rest))),
      hok, ?_, ?_, ?_, ?_⟩
    · rw [hslice]
      exact List.Nodup.sublist (List.drop_sublist _ _) hnodup
    · rw [hslice, List.length_drop, hlen_as]
      omega
    · intro i hi
      rw [hslice] at hi
      exact hmem i (List.mem_of_mem_drop hi)
    · simp only [find_most_similar]
      rw [hok]
      have hb : ∀ i ∈ pyLastSlice k (argsort (similarities query (v₀ :: rest))),
          i < texts.length := by
        intro i hi
        rw [hslice] at hi
        rw [hlen]
        exact hmem i (List.mem_of_mem_drop hi)
      show (if ∀ i ∈ pyLastSlice k (argsort (similarities query (v₀ :: rest))),
            i < texts.length
          then Except.ok ((pyLastSlice k
            (argsort (similarities query (v₀ :: rest)))).map
              (fun i => texts.getD i ""))
          else Except.error "IndexError: list index out of range") = _
      rw [if_pos hb]

/-- Witness for C6 at the two-record store of the end-to-end scenario. -/
theorem topk_cardinality_witness :
    (([[1, 0], [0, 1]] : List (List ℝ)) ≠ [] ∧ 1 ≤ 3) ∧
    (∃ idxs : List ℕ,
      topKIndices [(1 : ℝ), 0] [[1, 0], [0, 1]] 3 = .ok idxs ∧
      idxs.Nodup ∧
      idxs.length = min 3 ([[1, 0], [0, 1]] : List (List ℝ)).length ∧
      (∀ i ∈ idxs, i < ([[1, 0], [0, 1]] : List (List ℝ)).length) ∧
      find_most_similar [(1 : ℝ), 0] [[1, 0], [0, 1]] ["a", "b"] 3 =
        .ok (idxs.map (fun i => (["a", "b"] : List String).getD i ""))) :=
  ⟨⟨by simp, by omega⟩,
    topk_cardinality [(1 : ℝ), 0] [[1, 0], [0, 1]] ["a", "b"] 3 2
      (by simp) (by simp) rfl rfl (by omega)⟩

/-- Claim C7: `load_content` returns exactly the whitespace-trimmed versions
of the non-blank source lines, in source order, with blank (whitespace-only)
lines dropped; re-reading the same source (a second application to the same
line sequence) yields an identical result. -/
theorem load_content_trims_and_filters (lines : List String) :
    load_content lines = loadContentSpec lines ∧
    load_content lines = load_content lines := by
  refine ⟨?_, rfl⟩
  induction lines with
  | nil => rfl
  | cons l rest ih =>
    simp only [load_content, loadContentSpec, List.filterMap_cons,
      List.filter_cons] at ih ⊢
    by_cases h : pyStrip l = ""
    · rw [if_pos h]
      have hb : isBlankLine l = true := (pyStrip_eq_empty_iff l).mp h
      simp [hb, ih]
    · rw [if_neg h]
      have hb : ¬ isBlankLine l = true := fun hh =>
        h ((pyStrip_eq_empty_iff l).mpr hh)
      simp [hb, ih]

/-- Claim C8: the context string assembled by the query path equals the
`topK` text bodies (with the default `k = 3`), joined in the order returned,
with a blank line (two newline characters) between consecutive texts and
nothing else added — `contextSpec` is that spec-worded assembly. -/
theorem context_is_joined_topk (embed : String → List ℝ)
    (storedEmbeddings : List (List ℝ)) (storedTexts : List String)
    (query : String) (ts : List String)
    (h : find_most_similar (embed query) storedEmbeddings storedTexts 3 = .ok ts) :
    get_relevant_context embed storedEmbeddings storedTexts query =
      .ok (contextSpec ts) := by
  simp [get_relevant_context, h, pyJoin_eq_contextSpec, Except.map]

/-- Witness for C8 at the two-record store of the end-to-end scenario. -/
theorem context_is_joined_topk_witness :
    find_most_similar ((fun _ => [(1 : ℝ), 0]) "q") [[1, 0], [0, 1]]
        ["a", "b"] 3 = .ok ["b", "a"] ∧
    get_relevant_context (fun _ => [(1 : ℝ), 0]) [[1, 0], [0, 1]]
        ["a", "b"] "q" = .ok (contextSpec ["b", "a"]) :=
  ⟨fms_ex, context_is_joined_topk _ _ _ _ _ fms_ex⟩

/-- Claim C9: query-time operations leave the store unchanged.
`answer_question` is modelled over an explicit persisted-artifact state and
returns it untouched on every control path: the search mutates nothing and
the query embedding is never appended to the index nor written to the
artifact. -/
theorem answer_question_preserves_store (embed : String → List ℝ)
    (complete : String → String) (file : Option JValue) (question : String) :
    (answer_question embed complete file question).2 = file := by
  cases file with
  | none => rfl
  | some f =>
    cases hje : jEmbeddings (load_embeddings f) with
    | none => simp [answer_question, hje]
    | some embs =>
      cases hjt : jTexts (load_embeddings f) with
      | none => simp [answer_question, hje, hjt]
      | some texts =>
        cases hfm : find_most_similar (embed question) embs texts 3 with
        | error e => simp [answer_question, hje, hjt, hfm]
        | ok r => simp [answer_question, hje, hjt, hfm]

/-- Claim C10: the selection of `find_most_similar` depends only on the query
vector and the stored vectors, never on the text contents: with the same
query and vectors and any two equal-length text lists, either both runs fail
with the same error, or one index list — computed by `topKIndices` from the
vectors alone — determines both outputs, each run returning its own texts at
those identical positions; and identical inputs give identical outputs. -/
theorem selection_independent_of_texts (query : List ℝ)
    (embeddings : List (List ℝ)) (k : ℕ) (ts₁ ts₂ : List String)
    (hlen : ts₁.length = ts₂.length) :
    find_most_similar query embeddings ts₁ k =
      find_most_similar query embeddings ts₁ k ∧
    ((∃ e, find_most_similar query embeddings ts₁ k = .error e ∧
           find_most_similar query embeddings ts₂ k = .error e) ∨
     (∃ idxs, topKIndices query embeddings k = .ok idxs ∧
        find_most_similar query embeddings ts₁ k =
          .ok (idxs.map (fun i => ts₁.getD i "")) ∧
        find_most_similar query embeddings ts₂ k =
          .ok (idxs.map (fun i => ts₂.getD i "")))) := by
  refine ⟨rfl, ?_⟩
  cases hto : topKIndices query embeddings k with
  | error e =>
    left
    exact ⟨e, by simp [find_most_similar, hto], by simp [find_most_similar, hto]⟩
  | ok idxs =>
    by_cases hb : ∀ i ∈ idxs, i < ts₁.length
    · right
      have hb2 : ∀ i ∈ idxs, i < ts₂.length := by
        intro i hi
        have := hb i hi
        omega
      refine ⟨idxs, rfl, ?_, ?_⟩
      · simp only [find_most_similar, hto]
        rw [if_pos hb]
      · simp only [find_most_similar, hto]
        rw [if_pos hb2]
    · left
      have hb2 : ¬ ∀ i ∈ idxs, i < ts₂.length := by
        intro hh
        refine hb (fun i hi => ?_)
        have := hh i hi
        omega
      refine ⟨"IndexError: list index out of range", ?_, ?_⟩
      · simp only [find_most_similar, hto]
        rw [if_neg hb]
      · simp only [find_most_similar, hto]
        rw [if_neg hb2]

/-- Witness for C10: two runs over the same vectors with different
equal-length text lists. -/
theorem selection_independent_of_texts_witness :
    (["a", "b"] : List String).length = (["x", "y"] : List String).length ∧
    (find_most_similar [(1 : ℝ), 0] [[1, 0], [0, 1]] ["a", "b"] 3 =
       find_most_similar [(1 : ℝ), 0] [[1, 0], [0, 1]] ["a", "b"] 3 ∧
     ((∃ e, find_most_similar [(1 : ℝ), 0] [[1, 0], [0, 1]] ["a", "b"] 3 =
              .error e ∧
            find_most_similar [(1 : ℝ), 0] [[1, 0], [0, 1]] ["x", "y"] 3 =
              .error e) ∨
      (∃ idxs, topKIndices [(1 : ℝ), 0] [[1, 0], [0, 1]] 3 = .ok idxs ∧
         find_most_similar [(1 : ℝ), 0] [[1, 0], [0, 1]] ["a", "b"] 3 =
           .ok (idxs.map (fun i => (["a", "b"] : List String).getD i "")) ∧
         find_most_similar [(1 : ℝ), 0] [[1, 0], [0, 1]] ["x", "y"] 3 =
           .ok (idxs.map (fun i => (["x", "y"] : List String).getD i ""))))) :=
  ⟨rfl, selection_independent_of_texts [(1 : ℝ), 0] [[1, 0], [0, 1]] 3
    ["a", "b"] ["x", "y"] rfl⟩

end VectorQA
